import Mathlib

/-!
Verification of the risk-scoring and aggregation pipeline of the
Risk_Assess repository (sources: TK_risk.py and risk_assessment.py).

The tabular data handled by pandas is modelled shallowly: a table is a
list of column names together with a list of rows, a row being an
association list from column name to cell value.  A cell value is a
string, a (rational) number, or the missing marker NaN.  Rational
numbers stand for the Python int/float scores; integer scores embed
with denominator 1 and the float coercion of a rational is the
identity.  The JSON configuration file is modelled by an explicit JSON
value type together with a state type for the file (absent, unreadable,
or holding a parsed value); the try/except recovery of the Python code
becomes a total function on that state type.
-/

/-- A cell of the table: a string, a number (Python int/float as a
rational), or the missing-value marker NaN. -/
inductive Value where
  | str : String → Value
  | num : ℚ → Value
  | nan : Value
  deriving DecidableEq, Repr

/-- One table row: an association list from column name to cell value. -/
abbrev Row : Type := List (String × Value)

/-- A pandas DataFrame, shallowly: its column names and its rows. -/
structure Table where
  cols : List String
  rows : List Row
  deriving DecidableEq, Repr

/-- Reading a cell of a row; a key that is not present reads as NaN
(in pandas every row carries every column, missing entries being NaN). -/
def getCell (r : Row) (c : String) : Value :=
  (r.lookup c).getD .nan

/-- Writing a cell of a row: the first binding of the column is replaced
in place, a fresh column is appended at the end, as a pandas column
assignment does. -/
def setCell : Row → String → Value → Row
  | [], c, v => [(c, v)]
  | (k, w) :: rest, c, v =>
    if k == c then (c, v) :: rest else (k, w) :: setCell rest c v

/-- Python str() of a cell, as applied by astype(str): strings are kept,
integers print without a fractional part, NaN prints as "nan". -/
def pyStr : Value → String
  | .str s => s
  | .num q => if q.den = 1 then toString q.num else toString q
  | .nan => "nan"

/-- Python str.strip(): drop leading and trailing whitespace.  Defined
on the character list so that it evaluates inside the kernel. -/
def isSpaceChar (c : Char) : Bool :=
  c == ' ' || c == '\t' || c == '\n' || c == '\r' || c == '\x0b' || c == '\x0c'

/-- Python str.strip() of a string. -/
def pyStrip (s : String) : String :=
  ⟨((s.data.dropWhile isSpaceChar).reverse.dropWhile isSpaceChar).reverse⟩

/-- Rewrite every cell of one column of a table with a cell function. -/
def mapColCells (df : Table) (c : String) (f : Value → Value) : Table :=
  { df with rows := df.rows.map fun r => setCell r c (f (getCell r c)) }

/-- Column assignment df[c] = vs for a list of values (one per row). -/
def setColVals (df : Table) (c : String) (vs : List Value) : Table :=
  { cols := if df.cols.contains c then df.cols else df.cols ++ [c],
    rows := df.rows.zipWith (fun r v => setCell r c v) vs }

/-- Elementwise product of two cells; NaN (and the out-of-scope string
case, which the pipeline never produces here) propagates as NaN. -/
def vmul : Value → Value → Value
  | .num x, .num y => .num (x * y)
  | _, _ => .nan

/-- astype(float) of a cell: on the rational model the int-to-float
coercion is the identity and NaN stays NaN. -/
def floatv : Value → Value
  | .num q => .num q
  | .str s => .str s
  | .nan => .nan

/-- A parsed JSON document, for the risk_config.json resource. -/
inductive JVal where
  | num : ℚ → JVal
  | str : String → JVal
  | bool : Bool → JVal
  | null : JVal
  | arr : List JVal → JVal
  | obj : List (String × JVal) → JVal

/-- The state of the configuration resource: absent, present but not
readable/parsable, or holding a parsed JSON document.  JSON objects are
modelled with their (duplicate-free) key/value list. -/
inductive ConfigFile where
  | absent : ConfigFile
  | unreadable : ConfigFile
  | content : JVal → ConfigFile

/-- Serialization: json.dump of a JSON value produces a document that
json.load parses back to the same value. -/
def writeJson (j : JVal) : ConfigFile := .content j

namespace TK

/-- The built-in default mapping of TK_risk.load_risk_mapping, as the
score table used by the normalizer. -/
def default_mapping : List (String × ℚ) :=
  [("Critical Focus", 5), ("Enhanced Focus", 3), ("On Track", 1)]

/-- The built-in default mapping, as the JSON value load returns. -/
def default_mapping_j : JVal :=
  .obj [("Critical Focus", .num 5), ("Enhanced Focus", .num 3), ("On Track", .num 1)]

/-- TK_risk.load_risk_mapping: on a parsed dictionary holding a
"risk_mapping" key return that entry, on any other parsed dictionary
return the dictionary itself, and on every failure (absent or
unreadable file, non-dictionary document) return the built-in default.
The try/except of the source swallows the error, so the function is
total. -/
def load_risk_mapping : ConfigFile → JVal
  | .content (.obj kvs) =>
    match kvs.lookup "risk_mapping" with
    | some v => v
    | none => .obj kvs
  | .content _ => default_mapping_j
  | _ => default_mapping_j

/-- TK_risk.edit_risk_mapping.save_mapping: the edited mapping (always a
dictionary of label/score entries) is written wholesale to
risk_config.json. -/
def save_mapping (kvs : List (String × JVal)) : ConfigFile :=
  writeJson (.obj kvs)

/-- The three designated rating columns, in the order the conversion
loop visits them. -/
def rating_cols : List String := ["Severity", "Implementation Period", "Impact"]

/-- One cell of a designated column under
astype(str).str.strip().map(risk_mapping) followed by fillna(1): trim
the string form, look it up, and default to the score 1 on a miss.
(The source guards fillna(1) with an any-null check, which changes
nothing: fillna is the identity when no entry is null.) -/
def map_cell (m : List (String × ℚ)) (v : Value) : Value :=
  match m.lookup (pyStrip (pyStr v)) with
  | some q => .num q
  | none => .num 1

/-- One iteration of the TK_risk.convert_text_to_numeric loop: rewrite
the column if it is present, leave the table unchanged otherwise. -/
def convert_col (m : List (String × ℚ)) (df : Table) (col : String) : Table :=
  if df.cols.contains col then mapColCells df col (map_cell m) else df

/-- TK_risk.convert_text_to_numeric: the loop over Severity,
Implementation Period and Impact, unrolled.  The risk_mapping argument
stands for the mapping the source loads from the configuration file at
entry. -/
def convert_text_to_numeric (m : List (String × ℚ)) (df : Table) : Table :=
  convert_col m (convert_col m (convert_col m df "Severity") "Implementation Period") "Impact"

/-- TK_risk.calculate_risk_score: normalize first, then require the
three rating columns and either attach the Risk Score product column
(coerced with astype(float)) or report the missing-columns error and
return the table as it stands.  The Boolean is true when the
Missing Columns error box was shown. -/
def calculate_risk_score (m : List (String × ℚ)) (df : Table) : Table × Bool :=
  let df2 := convert_text_to_numeric m df
  if rating_cols.all (fun c => df2.cols.contains c) then
    let withScore := setColVals df2 "Risk Score"
      (df2.rows.map fun r =>
        vmul (vmul (getCell r "Severity") (getCell r "Implementation Period"))
          (getCell r "Impact"))
    (mapColCells withScore "Risk Score" floatv, false)
  else
    (df2, true)

end TK

namespace RA

/-- The column-role bindings chosen in
risk_assessment.column_mapping_interface: which actual column plays
each of the five semantic roles. -/
structure ColumnMappings where
  severity : String
  implementation_period : String
  impact : String
  initiative : String
  division : String

/-- risk_assessment.load_risk_mapping: return whatever json.load parses
(even a non-mapping), and the empty dictionary on any failure. -/
def load_risk_mapping : ConfigFile → JVal
  | .content j => j
  | _ => .obj []

/-- risk_assessment.save_risk_mapping: write the mapping wholesale to
risk_config.json. -/
def save_risk_mapping (j : JVal) : ConfigFile := writeJson j

/-- Per-column sub-mapping risk_mapping.get(mapped_col, {}) of the
loaded per-column mapping. -/
def sub_mapping (rm : List (String × List (String × ℚ))) (c : String) :
    List (String × ℚ) :=
  (rm.lookup c).getD []

/-- One iteration of the risk_assessment.convert_text_to_numeric loop
for the actual column bound to one role: the column is rewritten
through astype(str).str.strip().map(sub-mapping).fillna(1) when it is
present and not ignored. -/
def convert_col (rm : List (String × List (String × ℚ))) (ignore_columns : List String)
    (df : Table) (mapped_col : String) : Table :=
  if df.cols.contains mapped_col && !(ignore_columns.contains mapped_col) then
    mapColCells df mapped_col (TK.map_cell (sub_mapping rm mapped_col))
  else df

/-- risk_assessment.convert_text_to_numeric: the loop over the three
rating roles, unrolled onto the bound column names.  The rm argument
stands for the per-column mapping the source loads from the
configuration file at entry. -/
def convert_text_to_numeric (rm : List (String × List (String × ℚ)))
    (ms : ColumnMappings) (ignore_columns : List String) (df : Table) : Table :=
  convert_col rm ignore_columns
    (convert_col rm ignore_columns
      (convert_col rm ignore_columns df ms.severity) ms.implementation_period)
    ms.impact

/-- risk_assessment.calculate_risk_score: normalize, then attach the
Risk Score product column.  The source has no presence guard (a missing
bound column raises inside pandas), so this model is meaningful for
tables in which the three bound columns are present. -/
def calculate_risk_score (rm : List (String × List (String × ℚ)))
    (ms : ColumnMappings) (ignore_columns : List String) (df : Table) : Table :=
  let df2 := convert_text_to_numeric rm ms ignore_columns df
  setColVals df2 "Risk Score"
    (df2.rows.map fun r =>
      vmul (vmul (getCell r ms.severity) (getCell r ms.implementation_period))
        (getCell r ms.impact))

end RA

/-! Lexicographic ordering of strings and of (Initiative, Division)
pairs, as Python sorted() and the pandas groupby/pivot key sort use.
The order is taken on the character lists so that it evaluates inside
the kernel. -/

/-- Code-point lexicographic order on strings. -/
def strLe (a b : String) : Prop := a.data ≤ b.data

instance : DecidableRel strLe :=
  fun a b => inferInstanceAs (Decidable (a.data ≤ b.data))

instance : IsTotal String strLe := ⟨fun a b => le_total a.data b.data⟩

instance : IsTrans String strLe := ⟨fun _ _ _ h1 h2 => le_trans h1 h2⟩

instance : IsAntisymm String strLe := ⟨fun _ _ h1 h2 => String.ext (le_antisymm h1 h2)⟩

/-- Lexicographic order on key pairs: first component first, as pandas
sorts group keys. -/
def pairLe (p q : String × String) : Prop :=
  p.1.data < q.1.data ∨ (p.1 = q.1 ∧ p.2.data ≤ q.2.data)

instance : DecidableRel pairLe :=
  fun p q => inferInstanceAs (Decidable (p.1.data < q.1.data ∨ (p.1 = q.1 ∧ p.2.data ≤ q.2.data)))

instance : IsTotal (String × String) pairLe := by
  constructor
  intro p q
  rcases lt_trichotomy p.1.data q.1.data with h | h | h
  · exact Or.inl (Or.inl h)
  · rcases le_total p.2.data q.2.data with h2 | h2
    · exact Or.inl (Or.inr ⟨String.ext h, h2⟩)
    · exact Or.inr (Or.inr ⟨(String.ext h).symm, h2⟩)
  · exact Or.inr (Or.inl h)

instance : IsTrans (String × String) pairLe := by
  constructor
  intro p q r hpq hqr
  rcases hpq with h1 | ⟨e1, l1⟩
  · rcases hqr with h2 | ⟨e2, _⟩
    · exact Or.inl (lt_trans h1 h2)
    · exact Or.inl (e2 ▸ h1)
  · rcases hqr with h2 | ⟨e2, l2⟩
    · exact Or.inl (e1 ▸ h2)
    · exact Or.inr ⟨e1.trans e2, le_trans l1 l2⟩

instance : IsAntisymm (String × String) pairLe := by
  constructor
  intro p q hpq hqp
  rcases hpq with h1 | ⟨e1, l1⟩
  · rcases hqp with h2 | ⟨e2, _⟩
    · exact absurd h2 (lt_asymm h1)
    · exact absurd (e2 ▸ h1) (lt_irrefl _)
  · rcases hqp with h2 | ⟨_, l2⟩
    · exact absurd (e1 ▸ h2) (lt_irrefl _)
    · exact Prod.ext e1 (String.ext (le_antisymm l1 l2))

/-- Python sorted() of the distinct values of a list of strings:
deduplicate (pandas unique) and sort lexicographically. -/
def sortedUnique (l : List String) : List String :=
  List.insertionSort strLe l.dedup

/-- The distinct key pairs in pandas groupby order: deduplicated and
sorted lexicographically by the key tuple. -/
def sortedUniquePairs (l : List (String × String)) : List (String × String) :=
  List.insertionSort pairLe l.dedup

namespace TK

/-- The columns the chart builders require. -/
def required_chart_cols : List String := ["Initiative", "Division", "Risk Score"]

/-- Column assignment df[c] = df[c].astype(str).str.strip() of the
chart builders. -/
def trim_col (df : Table) (c : String) : Table :=
  mapColCells df c (fun v => .str (pyStrip (pyStr v)))

/-- The cleaning both chart builders perform: trim the Initiative and
Division strings, then dropna on Risk Score. -/
def clean_chart (df : Table) : Table :=
  let df1 := trim_col (trim_col df "Initiative") "Division"
  { df1 with rows := df1.rows.filter (fun r => getCell r "Risk Score" != Value.nan) }

/-- The string key a row contributes to a grouping column. -/
def rowKey (r : Row) (c : String) : String := pyStr (getCell r c)

/-- The (Initiative, Division) group key of a row. -/
def pairOf (r : Row) : String × String := (rowKey r "Initiative", rowKey r "Division")

/-- The rows of one (Initiative, Division) group. -/
def groupRows (rows : List Row) (p : String × String) : List Row :=
  rows.filter (fun r => pairOf r == p)

/-- The numeric reading of a Risk Score cell (the aggregation runs on
scored tables, whose Risk Score cells are numbers after dropna). -/
def scoreQ (r : Row) : ℚ :=
  match getCell r "Risk Score" with
  | .num q => q
  | _ => 0

/-- The arithmetic mean of the Risk Score over one group, as the pandas
mean aggregation computes it. -/
def meanScore (rows : List Row) (p : String × String) : ℚ :=
  ((groupRows rows p).map scoreQ).sum / ((groupRows rows p).length : ℚ)

/-- The data the bubble chart builder hands to the renderer: the
groupby aggregate rows (key pair and mean), the sorted distinct axis
values, the index coordinates, and the size hints. -/
structure BubbleOut where
  cells : List (String × String × ℚ)
  divisions : List String
  initiatives : List String
  xs : List Nat
  ys : List Nat
  sizes : List ℚ
  deriving DecidableEq, Repr

/-- TK_risk.visualize_risk_bubble, up to the renderer: require the
three chart columns (else the error path returns nothing), clean, group
by the (Initiative, Division) pair with mean Risk Score, sort the
distinct Division and Initiative values, assign 0-based indices from
the sorted positions, and scale the mean by 100 for the bubble size. -/
def visualize_risk_bubble (df : Table) : Option BubbleOut :=
  if required_chart_cols.all (fun c => df.cols.contains c) then
    let cleaned := (clean_chart df).rows
    let keys := sortedUniquePairs (cleaned.map pairOf)
    let divisions := sortedUnique (keys.map (fun p => p.2))
    let initiatives := sortedUnique (keys.map (fun p => p.1))
    some { cells := keys.map (fun p => (p.1, p.2, meanScore cleaned p)),
           divisions := divisions,
           initiatives := initiatives,
           xs := keys.map (fun p => divisions.indexOf p.2),
           ys := keys.map (fun p => initiatives.indexOf p.1),
           sizes := keys.map (fun p => meanScore cleaned p * 100) }
  else none

/-- One cell of the pivot table before fillna: the group mean when the
pair occurs in the cleaned input, undefined (NaN) otherwise. -/
def pivot_cell (rows : List Row) (ini d : String) : Option ℚ :=
  if (groupRows rows (ini, d)).isEmpty then none else some (meanScore rows (ini, d))

/-- The pivot_table matrix over sorted distinct Initiative rows and
Division columns, cells still optional (NaN where a pair is absent). -/
def pivot_cells (rows : List Row) (rowLabels colLabels : List String) :
    List (List (Option ℚ)) :=
  rowLabels.map (fun ini => colLabels.map (fun d => pivot_cell rows ini d))

/-- fillna(0) on the pivot matrix: every undefined cell becomes 0. -/
def fill_zero (m : List (List (Option ℚ))) : List (List ℚ) :=
  m.map (fun row => row.map (fun c => c.getD 0))

/-- The grid the heatmap builder hands to the renderer. -/
structure Grid where
  rowLabels : List String
  colLabels : List String
  cells : List (List ℚ)
  deriving DecidableEq, Repr

/-- TK_risk.visualize_risk_heatmap, up to the renderer: require the
three chart columns, clean, pivot to mean Risk Score by Initiative and
Division (pandas sorts both label axes), and fill undefined cells with
zero. -/
def visualize_risk_heatmap (df : Table) : Option Grid :=
  if required_chart_cols.all (fun c => df.cols.contains c) then
    let cleaned := (clean_chart df).rows
    let rowLabels := sortedUnique (cleaned.map (fun r => rowKey r "Initiative"))
    let colLabels := sortedUnique (cleaned.map (fun r => rowKey r "Division"))
    some { rowLabels := rowLabels,
           colLabels := colLabels,
           cells := fill_zero (pivot_cells cleaned rowLabels colLabels) }
  else none

end TK

namespace TK

/-- The row-level effect of one iteration of the conversion loop. -/
def convert_row_col (m : List (String × ℚ)) (cols : List String) (c : String) (r : Row) : Row :=
  if cols.contains c then setCell r c (map_cell m (getCell r c)) else r

/-- The row-level effect of the whole conversion loop. -/
def convert_row (m : List (String × ℚ)) (cols : List String) (r : Row) : Row :=
  convert_row_col m cols "Impact"
    (convert_row_col m cols "Implementation Period"
      (convert_row_col m cols "Severity" r))

/-- The row the scoring path produces from each normalized row: the
Risk Score cell holds the float-coerced product of the three rating
cells. -/
def score_row (r : Row) : Row :=
  setCell r "Risk Score"
    (floatv (vmul (vmul (getCell r "Severity") (getCell r "Implementation Period"))
      (getCell r "Impact")))

end TK

namespace RA

/-- The row-level effect of one iteration of the conversion loop. -/
def convert_row_col (rm : List (String × List (String × ℚ))) (ignore_columns : List String)
    (cols : List String) (mc : String) (r : Row) : Row :=
  if cols.contains mc && !(ignore_columns.contains mc) then
    setCell r mc (TK.map_cell (sub_mapping rm mc) (getCell r mc))
  else r

/-- The row-level effect of the whole conversion loop. -/
def convert_row (rm : List (String × List (String × ℚ))) (ignore_columns : List String)
    (cols : List String) (ms : ColumnMappings) (r : Row) : Row :=
  convert_row_col rm ignore_columns cols ms.impact
    (convert_row_col rm ignore_columns cols ms.implementation_period
      (convert_row_col rm ignore_columns cols ms.severity r))

/-- The row the risk_assessment scoring path produces from each
normalized row. -/
def score_row (ms : ColumnMappings) (r : Row) : Row :=
  setCell r "Risk Score"
    (vmul (vmul (getCell r ms.severity) (getCell r ms.implementation_period))
      (getCell r ms.impact))

end RA

/-- A configuration state the specification calls failed: the resource
is absent, unreadable, or does not parse as a mapping (a dictionary). -/
def bad_config : ConfigFile → Bool
  | .absent => true
  | .unreadable => true
  | .content (.obj _) => false
  | .content _ => true

/-- The two-row worked example of the specification. -/
def example_row1 : Row :=
  [("Severity", Value.str "Critical Focus"), ("Implementation Period", Value.str "On Track"),
    ("Impact", Value.str "Enhanced Focus"), ("Initiative", Value.str "A"),
    ("Division", Value.str "X")]

/-- Second row of the worked example. -/
def example_row2 : Row :=
  [("Severity", Value.str "On Track"), ("Implementation Period", Value.str "On Track"),
    ("Impact", Value.str "On Track"), ("Initiative", Value.str "A"),
    ("Division", Value.str "X")]

/-- The worked-example table. -/
def example_table : Table :=
  ⟨["Severity", "Implementation Period", "Impact", "Initiative", "Division"],
    [example_row1, example_row2]⟩

/-! Basic lemmas about cells and single-column rewrites. -/

theorem getCell_setCell_same (r : Row) (c : String) (v : Value) :
    getCell (setCell r c v) c = v := by
  induction r with
  | nil => simp [setCell, getCell, List.lookup]
  | cons p rest ih =>
    obtain ⟨k, w⟩ := p
    by_cases h : k = c
    · subst h
      simp [setCell, getCell, List.lookup]
    · have hb : (k == c) = false := beq_false_of_ne h
      simp only [setCell, hb, if_false, getCell, List.lookup]
      have hb2 : (c == k) = false := beq_false_of_ne (Ne.symm h)
      simp only [hb2]
      exact ih

theorem getCell_setCell_ne {c' c : String} (h : c' ≠ c) (r : Row) (v : Value) :
    getCell (setCell r c v) c' = getCell r c' := by
  induction r with
  | nil =>
    have hb : (c' == c) = false := beq_false_of_ne h
    simp [setCell, getCell, List.lookup, hb]
  | cons p rest ih =>
    obtain ⟨k, w⟩ := p
    by_cases hk : k = c
    · subst hk
      have hb : (c' == k) = false := beq_false_of_ne h
      simp [setCell, getCell, List.lookup, hb]
    · have hb : (k == c) = false := beq_false_of_ne hk
      simp only [setCell, hb, if_false, getCell, List.lookup]
      cases hck : (c' == k) with
      | true => rfl
      | false => exact ih

namespace TK

theorem convert_col_eq (m : List (String × ℚ)) (df : Table) (c : String) :
    convert_col m df c =
      { cols := df.cols, rows := df.rows.map (convert_row_col m df.cols c) } := by
  by_cases h : df.cols.contains c = true
  · have hf : convert_row_col m df.cols c = fun r => setCell r c (map_cell m (getCell r c)) := by
      funext r
      simp only [convert_row_col, h, if_true]
    simp only [convert_col, mapColCells, h, if_true, hf]
  · rw [Bool.not_eq_true] at h
    have hf : convert_row_col m df.cols c = fun r => r := by
      funext r
      simp only [convert_row_col, h, Bool.false_eq_true, if_false]
    simp only [convert_col, mapColCells, h, Bool.false_eq_true, if_false, hf, List.map_id']

theorem convert_eq (m : List (String × ℚ)) (df : Table) :
    convert_text_to_numeric m df =
      { cols := df.cols, rows := df.rows.map (convert_row m df.cols) } := by
  unfold convert_text_to_numeric
  rw [convert_col_eq, convert_col_eq, convert_col_eq]
  simp [List.map_map, convert_row, Function.comp]

theorem convert_cols (m : List (String × ℚ)) (df : Table) :
    (convert_text_to_numeric m df).cols = df.cols := by
  rw [convert_eq]

theorem getCell_convert_row_col_same (m : List (String × ℚ)) {cols : List String}
    {c : String} (h : cols.contains c = true) (r : Row) :
    getCell (convert_row_col m cols c r) c = map_cell m (getCell r c) := by
  simp only [convert_row_col, h, if_true]
  exact getCell_setCell_same r c _

theorem getCell_convert_row_col_ne (m : List (String × ℚ)) (cols : List String)
    {c' c : String} (h : c' ≠ c) (r : Row) :
    getCell (convert_row_col m cols c r) c' = getCell r c' := by
  unfold convert_row_col
  split
  · exact getCell_setCell_ne h r _
  · rfl

/-- The cell of a designated column present in the table, after the
conversion loop: exactly the trim-lookup-default rewrite of the
original cell. -/
theorem getCell_convert_row (m : List (String × ℚ)) {cols : List String}
    {c : String} (hc : c ∈ rating_cols) (h : cols.contains c = true) (r : Row) :
    getCell (convert_row m cols r) c = map_cell m (getCell r c) := by
  have hc3 : c = "Severity" ∨ c = "Implementation Period" ∨ c = "Impact" := by
    simpa [rating_cols] using hc
  unfold convert_row
  rcases hc3 with rfl | rfl | rfl
  · rw [getCell_convert_row_col_ne m _ (by decide),
      getCell_convert_row_col_ne m _ (by decide),
      getCell_convert_row_col_same m h]
  · rw [getCell_convert_row_col_ne m _ (by decide),
      getCell_convert_row_col_same m h,
      getCell_convert_row_col_ne m _ (by decide)]
  · rw [getCell_convert_row_col_same m h,
      getCell_convert_row_col_ne m _ (by decide),
      getCell_convert_row_col_ne m _ (by decide)]

end TK

namespace RA

theorem ra_convert_col_eq (rm : List (String × List (String × ℚ))) (ignore_columns : List String)
    (df : Table) (mc : String) :
    convert_col rm ignore_columns df mc =
      { cols := df.cols, rows := df.rows.map (convert_row_col rm ignore_columns df.cols mc) } := by
  by_cases h : (df.cols.contains mc && !(ignore_columns.contains mc)) = true
  · have hf : convert_row_col rm ignore_columns df.cols mc =
        fun r => setCell r mc (TK.map_cell (sub_mapping rm mc) (getCell r mc)) := by
      funext r
      simp only [convert_row_col, h, if_true]
    simp only [convert_col, mapColCells, h, if_true, hf]
  · rw [Bool.not_eq_true] at h
    have hf : convert_row_col rm ignore_columns df.cols mc = fun r => r := by
      funext r
      simp only [convert_row_col, h, Bool.false_eq_true, if_false]
    simp only [convert_col, mapColCells, h, Bool.false_eq_true, if_false, hf, List.map_id']

theorem ra_convert_eq (rm : List (String × List (String × ℚ))) (ms : ColumnMappings)
    (ignore_columns : List String) (df : Table) :
    convert_text_to_numeric rm ms ignore_columns df =
      { cols := df.cols, rows := df.rows.map (convert_row rm ignore_columns df.cols ms) } := by
  unfold convert_text_to_numeric
  rw [ra_convert_col_eq, ra_convert_col_eq, ra_convert_col_eq]
  simp [List.map_map, convert_row, Function.comp]

theorem ra_getCell_convert_row_col_same (rm : List (String × List (String × ℚ)))
    (ignore_columns : List String) {cols : List String} {mc : String}
    (h : cols.contains mc = true) (hig : ignore_columns.contains mc = false) (r : Row) :
    getCell (convert_row_col rm ignore_columns cols mc r) mc =
      TK.map_cell (sub_mapping rm mc) (getCell r mc) := by
  simp only [convert_row_col, h, hig, Bool.not_false, Bool.and_self, if_true]
  exact getCell_setCell_same r mc _

theorem ra_getCell_convert_row_col_ne (rm : List (String × List (String × ℚ)))
    (ignore_columns : List String) (cols : List String) {c' mc : String}
    (h : c' ≠ mc) (r : Row) :
    getCell (convert_row_col rm ignore_columns cols mc r) c' = getCell r c' := by
  unfold convert_row_col
  split
  · exact getCell_setCell_ne h r _
  · rfl

/-- The cell of a bound rating column present in the table and not
ignored, after the conversion loop, when the three bound names are
pairwise distinct: exactly the trim-lookup-default rewrite of the
original cell through that column's sub-mapping. -/
theorem ra_getCell_convert_row (rm : List (String × List (String × ℚ)))
    (ignore_columns : List String) {cols : List String} {ms : ColumnMappings} {mc : String}
    (hc : mc = ms.severity ∨ mc = ms.implementation_period ∨ mc = ms.impact)
    (hd1 : ms.severity ≠ ms.implementation_period) (hd2 : ms.severity ≠ ms.impact)
    (hd3 : ms.implementation_period ≠ ms.impact)
    (h : cols.contains mc = true) (hig : ignore_columns.contains mc = false) (r : Row) :
    getCell (convert_row rm ignore_columns cols ms r) mc =
      TK.map_cell (sub_mapping rm mc) (getCell r mc) := by
  unfold convert_row
  rcases hc with rfl | rfl | rfl
  · rw [ra_getCell_convert_row_col_ne rm ignore_columns cols hd2,
      ra_getCell_convert_row_col_ne rm ignore_columns cols hd1,
      ra_getCell_convert_row_col_same rm ignore_columns h hig]
  · rw [ra_getCell_convert_row_col_ne rm ignore_columns cols hd3,
      ra_getCell_convert_row_col_same rm ignore_columns h hig,
      ra_getCell_convert_row_col_ne rm ignore_columns cols (Ne.symm hd1)]
  · rw [ra_getCell_convert_row_col_same rm ignore_columns h hig,
      ra_getCell_convert_row_col_ne rm ignore_columns cols (Ne.symm hd3),
      ra_getCell_convert_row_col_ne rm ignore_columns cols (Ne.symm hd2)]

end RA

theorem setCell_setCell (r : Row) (c : String) (v w : Value) :
    setCell (setCell r c v) c w = setCell r c w := by
  induction r with
  | nil => simp [setCell]
  | cons p rest ih =>
    obtain ⟨k, x⟩ := p
    by_cases h : k = c
    · subst h
      simp [setCell]
    · have hb : (k == c) = false := beq_false_of_ne h
      simp [setCell, hb, ih]

namespace TK

theorem calculate_not_required (m : List (String × ℚ)) (df : Table)
    (h : rating_cols.all (fun c => df.cols.contains c) = false) :
    calculate_risk_score m df = (convert_text_to_numeric m df, true) := by
  unfold calculate_risk_score
  simp only [convert_cols, h, Bool.false_eq_true, if_false]

theorem calculate_required_rows (m : List (String × ℚ)) (df : Table)
    (h : rating_cols.all (fun c => df.cols.contains c) = true) :
    (calculate_risk_score m df).1.rows =
      (convert_text_to_numeric m df).rows.map score_row := by
  unfold calculate_risk_score
  simp only [convert_cols, h, if_true]
  simp only [mapColCells, setColVals]
  rw [List.zipWith_map_right, List.zipWith_same, List.map_map]
  apply List.map_congr_left
  intro r _
  simp only [Function.comp, score_row, getCell_setCell_same, setCell_setCell]

theorem calculate_required_cols (m : List (String × ℚ)) (df : Table)
    (h : rating_cols.all (fun c => df.cols.contains c) = true) :
    (calculate_risk_score m df).1.cols =
      (if df.cols.contains "Risk Score" then df.cols else df.cols ++ ["Risk Score"]) := by
  unfold calculate_risk_score
  simp only [convert_cols, h, if_true]
  simp only [mapColCells, setColVals, convert_cols]

theorem calculate_required_flag (m : List (String × ℚ)) (df : Table)
    (h : rating_cols.all (fun c => df.cols.contains c) = true) :
    (calculate_risk_score m df).2 = false := by
  unfold calculate_risk_score
  simp only [convert_cols, h, if_true]

theorem riskScore_mem_calculate (m : List (String × ℚ)) (df : Table)
    (h : rating_cols.all (fun c => df.cols.contains c) = true) :
    "Risk Score" ∈ (calculate_risk_score m df).1.cols := by
  rw [calculate_required_cols m df h]
  by_cases hrs : df.cols.contains "Risk Score" = true
  · rw [if_pos hrs]
    simpa using hrs
  · rw [Bool.not_eq_true] at hrs
    simp only [hrs, Bool.false_eq_true, if_false]
    exact List.mem_append_right _ (List.mem_singleton.mpr rfl)

end TK

namespace RA

theorem calculate_rows (rm : List (String × List (String × ℚ))) (ms : ColumnMappings)
    (ignore_columns : List String) (df : Table) :
    (calculate_risk_score rm ms ignore_columns df).rows =
      (convert_text_to_numeric rm ms ignore_columns df).rows.map (score_row ms) := by
  unfold calculate_risk_score
  simp only [setColVals]
  rw [List.zipWith_map_right, List.zipWith_same]
  rfl

end RA

/-! Permutation invariance of the sorting and grouping building
blocks. -/

theorem perm_isEmpty {α : Type} {l1 l2 : List α} (h : l1.Perm l2) :
    l1.isEmpty = l2.isEmpty := by
  have hl := h.length_eq
  cases l1 <;> cases l2 <;> simp_all

theorem insertionSort_dedup_eq_of_perm {α : Type} (r : α → α → Prop) [DecidableEq α]
    [DecidableRel r] [IsTotal α r] [IsTrans α r] [IsAntisymm α r]
    {l1 l2 : List α} (h : l1.Perm l2) :
    List.insertionSort r l1.dedup = List.insertionSort r l2.dedup :=
  List.eq_of_perm_of_sorted
    ((List.perm_insertionSort r l1.dedup).trans
      (h.dedup.trans (List.perm_insertionSort r l2.dedup).symm))
    (List.sorted_insertionSort r l1.dedup)
    (List.sorted_insertionSort r l2.dedup)

theorem sortedUnique_eq_of_perm {l1 l2 : List String} (h : l1.Perm l2) :
    sortedUnique l1 = sortedUnique l2 :=
  insertionSort_dedup_eq_of_perm strLe h

theorem sortedUniquePairs_eq_of_perm {l1 l2 : List (String × String)} (h : l1.Perm l2) :
    sortedUniquePairs l1 = sortedUniquePairs l2 :=
  insertionSort_dedup_eq_of_perm pairLe h

theorem mem_sortedUnique {a : String} {l : List String} :
    a ∈ sortedUnique l ↔ a ∈ l := by
  unfold sortedUnique
  rw [(List.perm_insertionSort strLe l.dedup).mem_iff, List.mem_dedup]

theorem sortedUnique_nodup (l : List String) : (sortedUnique l).Nodup :=
  ((List.perm_insertionSort strLe l.dedup).nodup_iff).mpr (List.nodup_dedup l)

theorem sortedUnique_sorted (l : List String) : List.Sorted strLe (sortedUnique l) :=
  List.sorted_insertionSort strLe l.dedup

theorem mem_sortedUniquePairs {p : String × String} {l : List (String × String)} :
    p ∈ sortedUniquePairs l ↔ p ∈ l := by
  unfold sortedUniquePairs
  rw [(List.perm_insertionSort pairLe l.dedup).mem_iff, List.mem_dedup]

theorem sortedUniquePairs_nodup (l : List (String × String)) :
    (sortedUniquePairs l).Nodup :=
  ((List.perm_insertionSort pairLe l.dedup).nodup_iff).mpr (List.nodup_dedup l)

theorem sortedUniquePairs_sorted (l : List (String × String)) :
    List.Sorted pairLe (sortedUniquePairs l) :=
  List.sorted_insertionSort pairLe l.dedup

namespace TK

theorem clean_chart_rows_perm {cols : List String} {rows1 rows2 : List Row}
    (h : rows1.Perm rows2) :
    (clean_chart ⟨cols, rows1⟩).rows.Perm (clean_chart ⟨cols, rows2⟩).rows := by
  simp only [clean_chart, trim_col, mapColCells]
  exact ((h.map _).map _).filter _

theorem groupRows_perm {rows1 rows2 : List Row} (h : rows1.Perm rows2)
    (p : String × String) : (groupRows rows1 p).Perm (groupRows rows2 p) :=
  h.filter _

theorem meanScore_perm {rows1 rows2 : List Row} (h : rows1.Perm rows2)
    (p : String × String) : meanScore rows1 p = meanScore rows2 p := by
  unfold meanScore
  rw [((groupRows_perm h p).map scoreQ).sum_eq, (groupRows_perm h p).length_eq]

theorem pivot_cell_perm {rows1 rows2 : List Row} (h : rows1.Perm rows2)
    (ini d : String) : pivot_cell rows1 ini d = pivot_cell rows2 ini d := by
  unfold pivot_cell
  rw [perm_isEmpty (groupRows_perm h (ini, d)), meanScore_perm h (ini, d)]

/-- A pair occurs as a group key of some cleaned row exactly when its
group of rows is nonempty. -/
theorem groupRows_isEmpty_iff (rows : List Row) (p : String × String) :
    (groupRows rows p).isEmpty = false ↔ p ∈ rows.map pairOf := by
  constructor
  · intro h
    rcases List.exists_mem_of_ne_nil (groupRows rows p)
      (fun hnil => by rw [hnil] at h; simp at h) with ⟨r, hr⟩
    unfold groupRows at hr
    rcases List.mem_filter.mp hr with ⟨hmem, hkey⟩
    exact List.mem_map.mpr ⟨r, hmem, eq_of_beq hkey⟩
  · intro h
    rcases List.mem_map.mp h with ⟨r, hmem, hkey⟩
    refine List.isEmpty_eq_false_iff_exists_mem.mpr ⟨r, ?_⟩
    exact List.mem_filter.mpr ⟨hmem, by simp [hkey]⟩

end TK

/-! The claims. -/

/-- C1: for every label absent from the risk mapping, normalizing a
table whose designated column (Severity, Implementation Period or
Impact — in risk_assessment, the column bound to that role, when
present, not ignored, and the three bound names are distinct) contains
a cell whose trimmed string form is that label produces the default
score 1 for that cell, while cells whose trimmed string form is present
in the mapping (for risk_assessment, in the per-column sub-mapping
keyed by the bound column's name) receive the mapped score. -/
theorem claim_C1 :
    (∀ (m : List (String × ℚ)) (df : Table) (col : String),
      col ∈ TK.rating_cols → df.cols.contains col = true →
      ∀ (i : ℕ) (r : Row), df.rows[i]? = some r →
      ∃ r2, (TK.convert_text_to_numeric m df).rows[i]? = some r2 ∧
        (m.lookup (pyStrip (pyStr (getCell r col))) = none →
          getCell r2 col = Value.num 1) ∧
        (∀ q : ℚ, m.lookup (pyStrip (pyStr (getCell r col))) = some q →
          getCell r2 col = Value.num q)) ∧
    (∀ (rm : List (String × List (String × ℚ))) (ms : RA.ColumnMappings)
      (ignore_columns : List String) (df : Table) (mc : String),
      (mc = ms.severity ∨ mc = ms.implementation_period ∨ mc = ms.impact) →
      ms.severity ≠ ms.implementation_period → ms.severity ≠ ms.impact →
      ms.implementation_period ≠ ms.impact →
      df.cols.contains mc = true → ignore_columns.contains mc = false →
      ∀ (i : ℕ) (r : Row), df.rows[i]? = some r →
      ∃ r2, (RA.convert_text_to_numeric rm ms ignore_columns df).rows[i]? = some r2 ∧
        ((RA.sub_mapping rm mc).lookup (pyStrip (pyStr (getCell r mc))) = none →
          getCell r2 mc = Value.num 1) ∧
        (∀ q : ℚ, (RA.sub_mapping rm mc).lookup (pyStrip (pyStr (getCell r mc))) = some q →
          getCell r2 mc = Value.num q)) := by
  constructor
  · intro m df col hc hpres i r hr
    refine ⟨TK.convert_row m df.cols r, ?_, ?_, ?_⟩
    · rw [TK.convert_eq]
      simp only [List.getElem?_map, hr, Option.map_some']
    · intro hnone
      rw [TK.getCell_convert_row m hc hpres r]
      simp [TK.map_cell, hnone]
    · intro q hsome
      rw [TK.getCell_convert_row m hc hpres r]
      simp [TK.map_cell, hsome]
  · intro rm ms ignore_columns df mc hc hd1 hd2 hd3 hpres hig i r hr
    refine ⟨RA.convert_row rm ignore_columns df.cols ms r, ?_, ?_, ?_⟩
    · rw [RA.ra_convert_eq]
      simp only [List.getElem?_map, hr, Option.map_some']
    · intro hnone
      rw [RA.ra_getCell_convert_row rm ignore_columns hc hd1 hd2 hd3 hpres hig r]
      simp [TK.map_cell, hnone]
    · intro q hsome
      rw [RA.ra_getCell_convert_row rm ignore_columns hc hd1 hd2 hd3 hpres hig r]
      simp [TK.map_cell, hsome]

/-- Witness for C1 at concrete inputs: a TK_risk table whose Severity
cell is the unmapped label Unknown, and a risk_assessment table whose
bound Sev column holds a padded mapped label. -/
theorem claim_C1_witness :
    (∃ r2, (TK.convert_text_to_numeric TK.default_mapping
        ⟨["Severity"], [[("Severity", Value.str "Unknown")]]⟩).rows[0]? = some r2 ∧
      (TK.default_mapping.lookup (pyStrip (pyStr
          (getCell [("Severity", Value.str "Unknown")] "Severity"))) = none →
        getCell r2 "Severity" = Value.num 1) ∧
      (∀ q : ℚ, TK.default_mapping.lookup (pyStrip (pyStr
          (getCell [("Severity", Value.str "Unknown")] "Severity"))) = some q →
        getCell r2 "Severity" = Value.num q)) ∧
    (∃ r2, (RA.convert_text_to_numeric [("Sev", [("Critical", (5 : ℚ))])]
        ⟨"Sev", "Per", "Imp", "Init", "Div"⟩ []
        ⟨["Sev"], [[("Sev", Value.str " Critical ")]]⟩).rows[0]? = some r2 ∧
      ((RA.sub_mapping [("Sev", [("Critical", (5 : ℚ))])] "Sev").lookup (pyStrip (pyStr
          (getCell [("Sev", Value.str " Critical ")] "Sev"))) = none →
        getCell r2 "Sev" = Value.num 1) ∧
      (∀ q : ℚ, (RA.sub_mapping [("Sev", [("Critical", (5 : ℚ))])] "Sev").lookup (pyStrip (pyStr
          (getCell [("Sev", Value.str " Critical ")] "Sev"))) = some q →
        getCell r2 "Sev" = Value.num q)) :=
  ⟨claim_C1.1 TK.default_mapping ⟨["Severity"], [[("Severity", Value.str "Unknown")]]⟩
      "Severity" (by decide) rfl 0 [("Severity", Value.str "Unknown")] rfl,
    claim_C1.2 [("Sev", [("Critical", (5 : ℚ))])] ⟨"Sev", "Per", "Imp", "Init", "Div"⟩ []
      ⟨["Sev"], [[("Sev", Value.str " Critical ")]]⟩ "Sev" (Or.inl rfl)
      (by decide) (by decide) (by decide) rfl rfl 0 [("Sev", Value.str " Critical ")] rfl⟩

/-- Counterexample to C9 as stated: the Normalizer is not idempotent.
A one-row table whose Severity is Critical Focus normalizes to the
score 5, and normalizing again re-maps the string form of 5 (absent
from the mapping) to the default 1, so applying the stage twice differs
from applying it once. -/
theorem claim_C9_counterexample :
    TK.convert_text_to_numeric TK.default_mapping
        (TK.convert_text_to_numeric TK.default_mapping
          ⟨["Severity"], [[("Severity", Value.str "Critical Focus")]]⟩) ≠
      TK.convert_text_to_numeric TK.default_mapping
        ⟨["Severity"], [[("Severity", Value.str "Critical Focus")]]⟩ := by
  decide

/-- C9 as amended: each stage is a deterministic transform of its input
table (and mapping), but the Normalizer is not idempotent: a second
application maps the string form of each already-numeric score through
the mapping again, so a designated cell normalized to a score q whose
string form is absent from the mapping becomes the default 1 on the
second pass — and therefore changes whenever q is not 1. -/
theorem claim_C9 :
    ∀ (m : List (String × ℚ)) (df : Table) (col : String),
      col ∈ TK.rating_cols → df.cols.contains col = true →
      ∀ (i : ℕ) (r2 : Row),
      (TK.convert_text_to_numeric m df).rows[i]? = some r2 →
      ∀ q : ℚ, getCell r2 col = Value.num q →
      m.lookup (pyStrip (pyStr (Value.num q))) = none →
      ∃ r3, (TK.convert_text_to_numeric m (TK.convert_text_to_numeric m df)).rows[i]? = some r3 ∧
        getCell r3 col = Value.num 1 ∧
        (q ≠ 1 → getCell r3 col ≠ getCell r2 col) := by
  intro m df col hc hpres i r2 hr2 q hq hnone
  have hpres2 : (TK.convert_text_to_numeric m df).cols.contains col = true := by
    rw [TK.convert_cols]
    exact hpres
  refine ⟨TK.convert_row m (TK.convert_text_to_numeric m df).cols r2, ?_, ?_, ?_⟩
  · rw [TK.convert_eq m (TK.convert_text_to_numeric m df)]
    simp only [List.getElem?_map, hr2, Option.map_some']
  · rw [TK.getCell_convert_row m hc hpres2 r2, hq]
    simp [TK.map_cell, hnone]
  · intro hq1
    rw [TK.getCell_convert_row m hc hpres2 r2, hq]
    simp only [TK.map_cell, hnone]
    intro hcontra
    exact hq1 (Value.num.inj hcontra).symm

/-- Witness for C9 at the counterexample table: the once-normalized
Severity score 5 is re-normalized to 1 by a second pass. -/
theorem claim_C9_witness :
    ∃ r3, (TK.convert_text_to_numeric TK.default_mapping
        (TK.convert_text_to_numeric TK.default_mapping
          ⟨["Severity"], [[("Severity", Value.str "Critical Focus")]]⟩)).rows[0]? = some r3 ∧
      getCell r3 "Severity" = Value.num 1 ∧
      ((5 : ℚ) ≠ 1 → getCell r3 "Severity" ≠ getCell [("Severity", Value.num 5)] "Severity") :=
  claim_C9 TK.default_mapping ⟨["Severity"], [[("Severity", Value.str "Critical Focus")]]⟩
    "Severity" (by decide) rfl 0 [("Severity", Value.num 5)] rfl 5 rfl rfl

/-- C10: when scoring fails because a designated source column is
missing, the returned table is the normalized table, not the input:
the error flag is set, the result equals the output of
convert_text_to_numeric, and every designated column that is present
has already been rewritten cell by cell through the mapping. -/
theorem claim_C10 :
    ∀ (m : List (String × ℚ)) (df : Table),
      TK.rating_cols.all (fun c => df.cols.contains c) = false →
      (TK.calculate_risk_score m df).1 = TK.convert_text_to_numeric m df ∧
      (TK.calculate_risk_score m df).2 = true ∧
      (∀ col, col ∈ TK.rating_cols → df.cols.contains col = true →
        ∀ (i : ℕ) (r : Row), df.rows[i]? = some r →
        ∃ r2, (TK.calculate_risk_score m df).1.rows[i]? = some r2 ∧
          getCell r2 col = TK.map_cell m (getCell r col)) := by
  intro m df h
  have hcalc := TK.calculate_not_required m df h
  refine ⟨by rw [hcalc], by rw [hcalc], ?_⟩
  intro col hc hpres i r hr
  rw [hcalc]
  refine ⟨TK.convert_row m df.cols r, ?_, ?_⟩
  · rw [TK.convert_eq]
    simp only [List.getElem?_map, hr, Option.map_some']
  · exact TK.getCell_convert_row m hc hpres r

/-- Witness for C10: a table with a Severity column but no Impact or
Implementation Period columns; the failing score call returns the
table with Severity already normalized. -/
theorem claim_C10_witness :
    (TK.calculate_risk_score TK.default_mapping
        ⟨["Severity"], [[("Severity", Value.str "Critical Focus")]]⟩).1 =
      TK.convert_text_to_numeric TK.default_mapping
        ⟨["Severity"], [[("Severity", Value.str "Critical Focus")]]⟩ ∧
    (TK.calculate_risk_score TK.default_mapping
        ⟨["Severity"], [[("Severity", Value.str "Critical Focus")]]⟩).2 = true ∧
    (∃ r2, (TK.calculate_risk_score TK.default_mapping
        ⟨["Severity"], [[("Severity", Value.str "Critical Focus")]]⟩).1.rows[0]? = some r2 ∧
      getCell r2 "Severity" =
        TK.map_cell TK.default_mapping
          (getCell [("Severity", Value.str "Critical Focus")] "Severity")) :=
  ⟨(claim_C10 TK.default_mapping
      ⟨["Severity"], [[("Severity", Value.str "Critical Focus")]]⟩ rfl).1,
    (claim_C10 TK.default_mapping
      ⟨["Severity"], [[("Severity", Value.str "Critical Focus")]]⟩ rfl).2.1,
    (claim_C10 TK.default_mapping
      ⟨["Severity"], [[("Severity", Value.str "Critical Focus")]]⟩ rfl).2.2
      "Severity" (by decide) rfl 0 [("Severity", Value.str "Critical Focus")] rfl⟩

/-- Counterexample to C3 as stated: a table that already carries a
Risk Score column and misses all three designated source columns.  The
score call fails with the missing-columns error, yet the returned
table still has a Risk Score field (the input's own), so the returned
table does not lack the field as the claim demands. -/
theorem claim_C3_counterexample :
    (TK.calculate_risk_score TK.default_mapping
        ⟨["Risk Score"], [[("Risk Score", Value.num 2)]]⟩).2 = true ∧
    "Risk Score" ∈ (TK.calculate_risk_score TK.default_mapping
        ⟨["Risk Score"], [[("Risk Score", Value.num 2)]]⟩).1.cols := by
  decide

/-- C3 as amended: with all three designated source columns present,
scoring never fails and the result carries a Risk Score field; with
any of them missing, scoring always fails with the missing-columns
error and does not add a Risk Score field — the result keeps exactly
the input's columns, so it lacks the field whenever the input did. -/
theorem claim_C3 :
    ∀ (m : List (String × ℚ)) (df : Table),
      (TK.rating_cols.all (fun c => df.cols.contains c) = true →
        (TK.calculate_risk_score m df).2 = false ∧
        "Risk Score" ∈ (TK.calculate_risk_score m df).1.cols) ∧
      (TK.rating_cols.all (fun c => df.cols.contains c) = false →
        (TK.calculate_risk_score m df).2 = true ∧
        (TK.calculate_risk_score m df).1.cols = df.cols ∧
        ("Risk Score" ∉ df.cols → "Risk Score" ∉ (TK.calculate_risk_score m df).1.cols)) := by
  intro m df
  constructor
  · intro h
    exact ⟨TK.calculate_required_flag m df h, TK.riskScore_mem_calculate m df h⟩
  · intro h
    have hcalc := TK.calculate_not_required m df h
    refine ⟨by rw [hcalc], ?_, ?_⟩
    · rw [hcalc]
      exact TK.convert_cols m df
    · intro hrs
      rw [hcalc]
      rw [TK.convert_cols m df]
      exact hrs

/-- Witness for C3 at concrete inputs: a complete one-row table scores
without failure, and a table holding only an Initiative column fails
and gains no Risk Score field. -/
theorem claim_C3_witness :
    ((TK.calculate_risk_score TK.default_mapping
        ⟨["Severity", "Implementation Period", "Impact"],
          [[("Severity", Value.str "On Track"), ("Implementation Period", Value.str "On Track"),
            ("Impact", Value.str "On Track")]]⟩).2 = false ∧
      "Risk Score" ∈ (TK.calculate_risk_score TK.default_mapping
        ⟨["Severity", "Implementation Period", "Impact"],
          [[("Severity", Value.str "On Track"), ("Implementation Period", Value.str "On Track"),
            ("Impact", Value.str "On Track")]]⟩).1.cols) ∧
    ((TK.calculate_risk_score TK.default_mapping
        ⟨["Initiative"], [[("Initiative", Value.str "A")]]⟩).2 = true ∧
      "Risk Score" ∉ (TK.calculate_risk_score TK.default_mapping
        ⟨["Initiative"], [[("Initiative", Value.str "A")]]⟩).1.cols) :=
  ⟨(claim_C3 TK.default_mapping
      ⟨["Severity", "Implementation Period", "Impact"],
        [[("Severity", Value.str "On Track"), ("Implementation Period", Value.str "On Track"),
          ("Impact", Value.str "On Track")]]⟩).1 rfl,
    ((claim_C3 TK.default_mapping
        ⟨["Initiative"], [[("Initiative", Value.str "A")]]⟩).2 rfl).1,
    ((claim_C3 TK.default_mapping
        ⟨["Initiative"], [[("Initiative", Value.str "A")]]⟩).2 rfl).2.2 (by decide)⟩

/-- C4: in both implementations every record's derived Risk Score cell
equals the product of its three normalized rating cells (in TK_risk
additionally coerced through astype(float)); and on the worked
two-row example with the default flat mapping the normalized triples
are (5,1,3) and (1,1,1), the Risk Scores are 15 and 1, and the
bubble-aggregation mean for the pair (A, X) is 8. -/
theorem claim_C4 :
    (∀ (m : List (String × ℚ)) (df : Table),
      TK.rating_cols.all (fun c => df.cols.contains c) = true →
      ∀ (i : ℕ) (r2 : Row),
      (TK.convert_text_to_numeric m df).rows[i]? = some r2 →
      ∃ r3, (TK.calculate_risk_score m df).1.rows[i]? = some r3 ∧
        getCell r3 "Risk Score" =
          floatv (vmul (vmul (getCell r2 "Severity") (getCell r2 "Implementation Period"))
            (getCell r2 "Impact"))) ∧
    (∀ (rm : List (String × List (String × ℚ))) (ms : RA.ColumnMappings)
      (ignore_columns : List String) (df : Table) (i : ℕ) (r2 : Row),
      (RA.convert_text_to_numeric rm ms ignore_columns df).rows[i]? = some r2 →
      ∃ r3, (RA.calculate_risk_score rm ms ignore_columns df).rows[i]? = some r3 ∧
        getCell r3 "Risk Score" =
          vmul (vmul (getCell r2 ms.severity) (getCell r2 ms.implementation_period))
            (getCell r2 ms.impact)) ∧
    ((∃ rc1, (TK.convert_text_to_numeric TK.default_mapping example_table).rows[0]? = some rc1 ∧
        getCell rc1 "Severity" = Value.num 5 ∧
        getCell rc1 "Implementation Period" = Value.num 1 ∧
        getCell rc1 "Impact" = Value.num 3) ∧
      (∃ rc2, (TK.convert_text_to_numeric TK.default_mapping example_table).rows[1]? = some rc2 ∧
        getCell rc2 "Severity" = Value.num 1 ∧
        getCell rc2 "Implementation Period" = Value.num 1 ∧
        getCell rc2 "Impact" = Value.num 1) ∧
      (∃ rs1, (TK.calculate_risk_score TK.default_mapping example_table).1.rows[0]? = some rs1 ∧
        getCell rs1 "Risk Score" = Value.num 15) ∧
      (∃ rs2, (TK.calculate_risk_score TK.default_mapping example_table).1.rows[1]? = some rs2 ∧
        getCell rs2 "Risk Score" = Value.num 1) ∧
      TK.meanScore (TK.clean_chart (TK.calculate_risk_score TK.default_mapping
        example_table).1).rows ("A", "X") = 8) := by
  refine ⟨?_, ?_, ?_, ?_, ?_, ?_, ?_⟩
  · intro m df h i r2 hr2
    refine ⟨TK.score_row r2, ?_, ?_⟩
    · rw [TK.calculate_required_rows m df h]
      simp only [List.getElem?_map, hr2, Option.map_some']
    · exact getCell_setCell_same r2 "Risk Score" _
  · intro rm ms ignore_columns df i r2 hr2
    refine ⟨RA.score_row ms r2, ?_, ?_⟩
    · rw [RA.calculate_rows rm ms ignore_columns df]
      simp only [List.getElem?_map, hr2, Option.map_some']
    · exact getCell_setCell_same r2 "Risk Score" _
  · exact ⟨_, rfl, rfl, rfl, rfl⟩
  · exact ⟨_, rfl, rfl, rfl, rfl⟩
  · refine ⟨_, rfl, ?_⟩
    have h15 : (5 : ℚ) * 1 * 3 = 15 := by norm_num
    show Value.num ((5 : ℚ) * 1 * 3) = Value.num 15
    rw [h15]
  · refine ⟨_, rfl, ?_⟩
    have h1 : (1 : ℚ) * 1 * 1 = 1 := by norm_num
    show Value.num ((1 : ℚ) * 1 * 1) = Value.num 1
    rw [h1]
  · have hraw : TK.meanScore (TK.clean_chart (TK.calculate_risk_score TK.default_mapping
        example_table).1).rows ("A", "X") =
        ((5 : ℚ) * 1 * 3 + ((1 : ℚ) * 1 * 1 + 0)) / ((2 : ℕ) : ℚ) := rfl
    rw [hraw]
    norm_num

/-- Witness for C4: both product laws applied to the worked example
(and, for risk_assessment, to its column bindings on the same data). -/
theorem claim_C4_witness :
    (∃ r3, (TK.calculate_risk_score TK.default_mapping example_table).1.rows[0]? = some r3 ∧
      getCell r3 "Risk Score" =
        floatv (vmul (vmul (getCell [("Severity", Value.num 5),
            ("Implementation Period", Value.num 1), ("Impact", Value.num 3),
            ("Initiative", Value.str "A"), ("Division", Value.str "X")] "Severity")
          (getCell [("Severity", Value.num 5), ("Implementation Period", Value.num 1),
            ("Impact", Value.num 3), ("Initiative", Value.str "A"),
            ("Division", Value.str "X")] "Implementation Period"))
          (getCell [("Severity", Value.num 5), ("Implementation Period", Value.num 1),
            ("Impact", Value.num 3), ("Initiative", Value.str "A"),
            ("Division", Value.str "X")] "Impact"))) ∧
    (∃ r3, (RA.calculate_risk_score []
        ⟨"Severity", "Implementation Period", "Impact", "Initiative", "Division"⟩ []
        example_table).rows[0]? = some r3 ∧
      getCell r3 "Risk Score" =
        vmul (vmul (getCell [("Severity", Value.num 1), ("Implementation Period", Value.num 1),
            ("Impact", Value.num 1), ("Initiative", Value.str "A"),
            ("Division", Value.str "X")] "Severity")
          (getCell [("Severity", Value.num 1), ("Implementation Period", Value.num 1),
            ("Impact", Value.num 1), ("Initiative", Value.str "A"),
            ("Division", Value.str "X")] "Implementation Period"))
          (getCell [("Severity", Value.num 1), ("Implementation Period", Value.num 1),
            ("Impact", Value.num 1), ("Initiative", Value.str "A"),
            ("Division", Value.str "X")] "Impact")) :=
  ⟨claim_C4.1 TK.default_mapping example_table rfl 0
      [("Severity", Value.num 5), ("Implementation Period", Value.num 1),
        ("Impact", Value.num 3), ("Initiative", Value.str "A"),
        ("Division", Value.str "X")] rfl,
    claim_C4.2.1 [] ⟨"Severity", "Implementation Period", "Impact", "Initiative", "Division"⟩ []
      example_table 0
      [("Severity", Value.num 1), ("Implementation Period", Value.num 1),
        ("Impact", Value.num 1), ("Initiative", Value.str "A"),
        ("Division", Value.str "X")] rfl⟩

/-- C5: aggregation is order-independent.  Permuting the rows of a
table changes neither the bubble aggregation output (cells, means,
axis values, indices, sizes) nor the heatmap grid. -/
theorem claim_C5 :
    ∀ (cols : List String) (rows1 rows2 : List Row), rows1.Perm rows2 →
      TK.visualize_risk_bubble ⟨cols, rows1⟩ = TK.visualize_risk_bubble ⟨cols, rows2⟩ ∧
      TK.visualize_risk_heatmap ⟨cols, rows1⟩ = TK.visualize_risk_heatmap ⟨cols, rows2⟩ := by
  intro cols rows1 rows2 h
  have hclean := @TK.clean_chart_rows_perm cols rows1 rows2 h
  have hkeys : sortedUniquePairs ((TK.clean_chart ⟨cols, rows1⟩).rows.map TK.pairOf) =
      sortedUniquePairs ((TK.clean_chart ⟨cols, rows2⟩).rows.map TK.pairOf) :=
    sortedUniquePairs_eq_of_perm (hclean.map TK.pairOf)
  have hmean : ∀ p, TK.meanScore (TK.clean_chart ⟨cols, rows1⟩).rows p =
      TK.meanScore (TK.clean_chart ⟨cols, rows2⟩).rows p :=
    fun p => TK.meanScore_perm hclean p
  have hinit : sortedUnique ((TK.clean_chart ⟨cols, rows1⟩).rows.map
        (fun r => TK.rowKey r "Initiative")) =
      sortedUnique ((TK.clean_chart ⟨cols, rows2⟩).rows.map (fun r => TK.rowKey r "Initiative")) :=
    sortedUnique_eq_of_perm (hclean.map _)
  have hdiv : sortedUnique ((TK.clean_chart ⟨cols, rows1⟩).rows.map
        (fun r => TK.rowKey r "Division")) =
      sortedUnique ((TK.clean_chart ⟨cols, rows2⟩).rows.map (fun r => TK.rowKey r "Division")) :=
    sortedUnique_eq_of_perm (hclean.map _)
  have hpiv : ∀ ini d, TK.pivot_cell (TK.clean_chart ⟨cols, rows1⟩).rows ini d =
      TK.pivot_cell (TK.clean_chart ⟨cols, rows2⟩).rows ini d :=
    fun ini d => TK.pivot_cell_perm hclean ini d
  constructor
  · simp only [TK.visualize_risk_bubble]
    rw [hkeys]
    simp only [hmean]
  · simp only [TK.visualize_risk_heatmap]
    rw [hinit, hdiv]
    simp only [TK.pivot_cells, hpiv]

/-- Witness for C5: a two-row table and its swap aggregate to the same
bubble output and the same grid. -/
theorem claim_C5_witness :
    TK.visualize_risk_bubble
        ⟨["Initiative", "Division", "Risk Score"],
          [[("Initiative", Value.str "A"), ("Division", Value.str "X"),
              ("Risk Score", Value.num 2)],
            [("Initiative", Value.str "B"), ("Division", Value.str "Y"),
              ("Risk Score", Value.num 4)]]⟩ =
      TK.visualize_risk_bubble
        ⟨["Initiative", "Division", "Risk Score"],
          [[("Initiative", Value.str "B"), ("Division", Value.str "Y"),
              ("Risk Score", Value.num 4)],
            [("Initiative", Value.str "A"), ("Division", Value.str "X"),
              ("Risk Score", Value.num 2)]]⟩ ∧
    TK.visualize_risk_heatmap
        ⟨["Initiative", "Division", "Risk Score"],
          [[("Initiative", Value.str "A"), ("Division", Value.str "X"),
              ("Risk Score", Value.num 2)],
            [("Initiative", Value.str "B"), ("Division", Value.str "Y"),
              ("Risk Score", Value.num 4)]]⟩ =
      TK.visualize_risk_heatmap
        ⟨["Initiative", "Division", "Risk Score"],
          [[("Initiative", Value.str "B"), ("Division", Value.str "Y"),
              ("Risk Score", Value.num 4)],
            [("Initiative", Value.str "A"), ("Division", Value.str "X"),
              ("Risk Score", Value.num 2)]]⟩ :=
  claim_C5 ["Initiative", "Division", "Risk Score"]
    [[("Initiative", Value.str "A"), ("Division", Value.str "X"), ("Risk Score", Value.num 2)],
      [("Initiative", Value.str "B"), ("Division", Value.str "Y"), ("Risk Score", Value.num 4)]]
    [[("Initiative", Value.str "B"), ("Division", Value.str "Y"), ("Risk Score", Value.num 4)],
      [("Initiative", Value.str "A"), ("Division", Value.str "X"), ("Risk Score", Value.num 2)]]
    (List.Perm.swap
      [("Initiative", Value.str "B"), ("Division", Value.str "Y"), ("Risk Score", Value.num 4)]
      [("Initiative", Value.str "A"), ("Division", Value.str "X"), ("Risk Score", Value.num 2)]
      [])

/-- C6: the heatmap grid is total over (distinct Initiatives) times
(distinct Divisions) of the cleaned input: every observed
(Initiative, Division) pair has its initiative among the row labels and
its division among the column labels, the cell matrix covers every
label pair, and each cell holds the group's arithmetic mean when the
pair is observed and 0 when it is not — never an undefined cell. -/
theorem claim_C6 :
    ∀ (df : Table) (G : TK.Grid), TK.visualize_risk_heatmap df = some G →
      (∀ p ∈ (TK.clean_chart df).rows.map TK.pairOf,
        p.1 ∈ G.rowLabels ∧ p.2 ∈ G.colLabels) ∧
      G.cells.length = G.rowLabels.length ∧
      (∀ rowvals ∈ G.cells, rowvals.length = G.colLabels.length) ∧
      G.cells = G.rowLabels.map (fun ini => G.colLabels.map (fun d =>
        if (ini, d) ∈ (TK.clean_chart df).rows.map TK.pairOf
        then TK.meanScore (TK.clean_chart df).rows (ini, d) else 0)) := by
  intro df G hG
  simp only [TK.visualize_risk_heatmap] at hG
  by_cases hreq : TK.required_chart_cols.all (fun c => df.cols.contains c) = true
  · rw [if_pos hreq] at hG
    obtain rfl := (Option.some.inj hG).symm
    refine ⟨?_, ?_, ?_, ?_⟩
    · intro p hp
      constructor
      · apply mem_sortedUnique.mpr
        rcases List.mem_map.mp hp with ⟨r, hr, hpr⟩
        exact List.mem_map.mpr ⟨r, hr, by rw [← hpr]; rfl⟩
      · apply mem_sortedUnique.mpr
        rcases List.mem_map.mp hp with ⟨r, hr, hpr⟩
        exact List.mem_map.mpr ⟨r, hr, by rw [← hpr]; rfl⟩
    · simp [TK.fill_zero, TK.pivot_cells]
    · intro rowvals hrv
      simp only [TK.fill_zero, TK.pivot_cells, List.map_map, List.mem_map] at hrv
      rcases hrv with ⟨ini, _, hrow⟩
      rw [← hrow]
      simp [Function.comp]
    · show TK.fill_zero (TK.pivot_cells (TK.clean_chart df).rows _ _) = _
      simp only [TK.fill_zero, TK.pivot_cells, List.map_map]
      apply List.map_congr_left
      intro ini _
      simp only [Function.comp]
      rw [List.map_map]
      apply List.map_congr_left
      intro d _
      simp only [Function.comp]
      by_cases hobs : (ini, d) ∈ (TK.clean_chart df).rows.map TK.pairOf
      · have hne : (TK.groupRows (TK.clean_chart df).rows (ini, d)).isEmpty = false :=
          (TK.groupRows_isEmpty_iff _ _).mpr hobs
        simp only [TK.pivot_cell, hne, Bool.false_eq_true, if_false, Option.getD_some,
          if_pos hobs]
      · have hne : (TK.groupRows (TK.clean_chart df).rows (ini, d)).isEmpty = true := by
          rcases Bool.eq_false_or_eq_true ((TK.groupRows (TK.clean_chart df).rows
            (ini, d)).isEmpty) with ht | hf
          · exact ht
          · exact absurd ((TK.groupRows_isEmpty_iff _ _).mp hf) hobs
        simp only [TK.pivot_cell, hne, if_true, Option.getD_none, if_neg hobs]
  · rw [Bool.not_eq_true] at hreq
    rw [if_neg (by rw [hreq]; exact Bool.false_ne_true)] at hG
    exact absurd hG (Option.noConfusion)

/-- Witness for C6 at a one-row table: the pair (A, X) is observed
with mean 2, and the grid covers it. -/
theorem claim_C6_witness :
    (∀ p ∈ (TK.clean_chart ⟨["Initiative", "Division", "Risk Score"],
        [[("Initiative", Value.str "A"), ("Division", Value.str "X"),
          ("Risk Score", Value.num 2)]]⟩).rows.map TK.pairOf,
      p.1 ∈ (TK.Grid.mk ["A"] ["X"] [[((2 : ℚ) + 0) / ((1 : ℕ) : ℚ)]]).rowLabels ∧
      p.2 ∈ (TK.Grid.mk ["A"] ["X"] [[((2 : ℚ) + 0) / ((1 : ℕ) : ℚ)]]).colLabels) ∧
    (TK.Grid.mk ["A"] ["X"] [[((2 : ℚ) + 0) / ((1 : ℕ) : ℚ)]]).cells.length =
      (TK.Grid.mk ["A"] ["X"] [[((2 : ℚ) + 0) / ((1 : ℕ) : ℚ)]]).rowLabels.length ∧
    (∀ rowvals ∈ (TK.Grid.mk ["A"] ["X"] [[((2 : ℚ) + 0) / ((1 : ℕ) : ℚ)]]).cells,
      rowvals.length = (TK.Grid.mk ["A"] ["X"] [[((2 : ℚ) + 0) / ((1 : ℕ) : ℚ)]]).colLabels.length) ∧
    (TK.Grid.mk ["A"] ["X"] [[((2 : ℚ) + 0) / ((1 : ℕ) : ℚ)]]).cells =
      (TK.Grid.mk ["A"] ["X"] [[((2 : ℚ) + 0) / ((1 : ℕ) : ℚ)]]).rowLabels.map (fun ini =>
        (TK.Grid.mk ["A"] ["X"] [[((2 : ℚ) + 0) / ((1 : ℕ) : ℚ)]]).colLabels.map (fun d =>
          if (ini, d) ∈ (TK.clean_chart ⟨["Initiative", "Division", "Risk Score"],
              [[("Initiative", Value.str "A"), ("Division", Value.str "X"),
                ("Risk Score", Value.num 2)]]⟩).rows.map TK.pairOf
          then TK.meanScore (TK.clean_chart ⟨["Initiative", "Division", "Risk Score"],
              [[("Initiative", Value.str "A"), ("Division", Value.str "X"),
                ("Risk Score", Value.num 2)]]⟩).rows (ini, d) else 0)) :=
  claim_C6 ⟨["Initiative", "Division", "Risk Score"],
      [[("Initiative", Value.str "A"), ("Division", Value.str "X"),
        ("Risk Score", Value.num 2)]]⟩
    (TK.Grid.mk ["A"] ["X"] [[((2 : ℚ) + 0) / ((1 : ℕ) : ℚ)]]) rfl

/-- C8: the bubble aggregation of a table carrying the Initiative,
Division and Risk Score columns produces exactly one aggregate cell per
distinct observed (Initiative, Division) pair of the cleaned records,
each carrying the group's arithmetic mean of Risk Score; the axes are
the lexicographically sorted distinct Division and Initiative values,
each cell's coordinates are the 0-based indices of its pair in those
sorted lists, and each size hint is the mean times 100. -/
theorem claim_C8 :
    ∀ (df : Table) (B : TK.BubbleOut), TK.visualize_risk_bubble df = some B →
      (B.cells.map (fun c => (c.1, c.2.1))).Nodup ∧
      (∀ p : String × String, p ∈ B.cells.map (fun c => (c.1, c.2.1)) ↔
        p ∈ (TK.clean_chart df).rows.map TK.pairOf) ∧
      (∀ c ∈ B.cells, c.2.2 = TK.meanScore (TK.clean_chart df).rows (c.1, c.2.1)) ∧
      List.Sorted strLe B.divisions ∧ B.divisions.Nodup ∧
      (∀ d, d ∈ B.divisions ↔
        d ∈ (TK.clean_chart df).rows.map (fun r => TK.rowKey r "Division")) ∧
      List.Sorted strLe B.initiatives ∧ B.initiatives.Nodup ∧
      (∀ a, a ∈ B.initiatives ↔
        a ∈ (TK.clean_chart df).rows.map (fun r => TK.rowKey r "Initiative")) ∧
      B.xs = B.cells.map (fun c => B.divisions.indexOf c.2.1) ∧
      B.ys = B.cells.map (fun c => B.initiatives.indexOf c.1) ∧
      B.sizes = B.cells.map (fun c => c.2.2 * 100) := by
  intro df B hB
  simp only [TK.visualize_risk_bubble] at hB
  by_cases hreq : TK.required_chart_cols.all (fun c => df.cols.contains c) = true
  · rw [if_pos hreq] at hB
    obtain rfl := (Option.some.inj hB).symm
    dsimp only
    have hproj : (List.map (fun p => (p.1, p.2,
          TK.meanScore (TK.clean_chart df).rows p))
          (sortedUniquePairs ((TK.clean_chart df).rows.map TK.pairOf))).map
          (fun c => (c.1, c.2.1)) =
        sortedUniquePairs ((TK.clean_chart df).rows.map TK.pairOf) := by
      rw [List.map_map]
      rw [show ((fun c : String × String × ℚ => (c.1, c.2.1)) ∘
          (fun p : String × String => (p.1, p.2,
            TK.meanScore (TK.clean_chart df).rows p))) = id from rfl]
      exact List.map_id _
    refine ⟨?_, ?_, ?_, ?_, ?_, ?_, ?_, ?_, ?_, ?_, ?_, ?_⟩
    · rw [hproj]
      exact sortedUniquePairs_nodup _
    · intro p
      rw [hproj]
      exact mem_sortedUniquePairs
    · intro c hc
      rcases List.mem_map.mp hc with ⟨p, hp, rfl⟩
      rfl
    · exact sortedUnique_sorted _
    · exact sortedUnique_nodup _
    · intro d
      simp only [mem_sortedUnique, List.mem_map, mem_sortedUniquePairs]
      constructor
      · rintro ⟨p, ⟨r, hr, rfl⟩, hd⟩
        exact ⟨r, hr, hd⟩
      · rintro ⟨r, hr, hd⟩
        exact ⟨TK.pairOf r, ⟨r, hr, rfl⟩, hd⟩
    · exact sortedUnique_sorted _
    · exact sortedUnique_nodup _
    · intro a
      simp only [mem_sortedUnique, List.mem_map, mem_sortedUniquePairs]
      constructor
      · rintro ⟨p, ⟨r, hr, rfl⟩, ha⟩
        exact ⟨r, hr, ha⟩
      · rintro ⟨r, hr, ha⟩
        exact ⟨TK.pairOf r, ⟨r, hr, rfl⟩, ha⟩
    · rw [List.map_map]
      rfl
    · rw [List.map_map]
      rfl
    · rw [List.map_map]
      rfl
  · rw [Bool.not_eq_true] at hreq
    rw [if_neg (by rw [hreq]; exact Bool.false_ne_true)] at hB
    exact absurd hB (Option.noConfusion)

/-- Witness for C8 at a one-row table: the single aggregate cell is
(A, X) with mean 2, index coordinates (0, 0) and size 200. -/
theorem claim_C8_witness :
    ((TK.BubbleOut.mk [("A", "X", ((2 : ℚ) + 0) / ((1 : ℕ) : ℚ))] ["X"] ["A"] [0] [0]
        [((2 : ℚ) + 0) / ((1 : ℕ) : ℚ) * 100]).cells.map (fun c => (c.1, c.2.1))).Nodup ∧
    (∀ p : String × String, p ∈ (TK.BubbleOut.mk [("A", "X", ((2 : ℚ) + 0) / ((1 : ℕ) : ℚ))]
        ["X"] ["A"] [0] [0] [((2 : ℚ) + 0) / ((1 : ℕ) : ℚ) * 100]).cells.map
          (fun c => (c.1, c.2.1)) ↔
      p ∈ (TK.clean_chart ⟨["Initiative", "Division", "Risk Score"],
        [[("Initiative", Value.str "A"), ("Division", Value.str "X"),
          ("Risk Score", Value.num 2)]]⟩).rows.map TK.pairOf) ∧
    (∀ c ∈ (TK.BubbleOut.mk [("A", "X", ((2 : ℚ) + 0) / ((1 : ℕ) : ℚ))] ["X"] ["A"] [0] [0]
        [((2 : ℚ) + 0) / ((1 : ℕ) : ℚ) * 100]).cells,
      c.2.2 = TK.meanScore (TK.clean_chart ⟨["Initiative", "Division", "Risk Score"],
        [[("Initiative", Value.str "A"), ("Division", Value.str "X"),
          ("Risk Score", Value.num 2)]]⟩).rows (c.1, c.2.1)) ∧
    List.Sorted strLe ["X"] ∧ (["X"] : List String).Nodup ∧
    (∀ d, d ∈ (["X"] : List String) ↔
      d ∈ (TK.clean_chart ⟨["Initiative", "Division", "Risk Score"],
        [[("Initiative", Value.str "A"), ("Division", Value.str "X"),
          ("Risk Score", Value.num 2)]]⟩).rows.map (fun r => TK.rowKey r "Division")) ∧
    List.Sorted strLe ["A"] ∧ (["A"] : List String).Nodup ∧
    (∀ a, a ∈ (["A"] : List String) ↔
      a ∈ (TK.clean_chart ⟨["Initiative", "Division", "Risk Score"],
        [[("Initiative", Value.str "A"), ("Division", Value.str "X"),
          ("Risk Score", Value.num 2)]]⟩).rows.map (fun r => TK.rowKey r "Initiative")) ∧
    ([0] : List ℕ) = (TK.BubbleOut.mk [("A", "X", ((2 : ℚ) + 0) / ((1 : ℕ) : ℚ))] ["X"] ["A"]
        [0] [0] [((2 : ℚ) + 0) / ((1 : ℕ) : ℚ) * 100]).cells.map
          (fun c => (["X"] : List String).indexOf c.2.1) ∧
    ([0] : List ℕ) = (TK.BubbleOut.mk [("A", "X", ((2 : ℚ) + 0) / ((1 : ℕ) : ℚ))] ["X"] ["A"]
        [0] [0] [((2 : ℚ) + 0) / ((1 : ℕ) : ℚ) * 100]).cells.map
          (fun c => (["A"] : List String).indexOf c.1) ∧
    [((2 : ℚ) + 0) / ((1 : ℕ) : ℚ) * 100] =
      (TK.BubbleOut.mk [("A", "X", ((2 : ℚ) + 0) / ((1 : ℕ) : ℚ))] ["X"] ["A"] [0] [0]
        [((2 : ℚ) + 0) / ((1 : ℕ) : ℚ) * 100]).cells.map (fun c => c.2.2 * 100) :=
  claim_C8 ⟨["Initiative", "Division", "Risk Score"],
      [[("Initiative", Value.str "A"), ("Division", Value.str "X"),
        ("Risk Score", Value.num 2)]]⟩
    (TK.BubbleOut.mk [("A", "X", ((2 : ℚ) + 0) / ((1 : ℕ) : ℚ))] ["X"] ["A"] [0] [0]
      [((2 : ℚ) + 0) / ((1 : ℕ) : ℚ) * 100]) rfl

/-- Counterexample to C2 as stated: with the configuration resource
absent, risk_assessment's load returns the empty mapping, not the
built-in default mapping the claim names. -/
theorem claim_C2_counterexample :
    RA.load_risk_mapping ConfigFile.absent = JVal.obj [] ∧
    JVal.obj [] ≠ TK.default_mapping_j := by
  refine ⟨rfl, ?_⟩
  intro h
  simp [TK.default_mapping_j] at h

/-- C2 as amended: for every failed configuration state (absent,
unreadable, or parsed to a non-mapping), TK_risk's load returns the
built-in default mapping with Critical Focus 5, Enhanced Focus 3 and
On Track 1; risk_assessment's load instead returns the empty mapping
when the resource is absent or unreadable and returns whatever parsed
(even a non-mapping) otherwise.  Both are total: no error reaches the
caller. -/
theorem claim_C2 :
    (∀ s : ConfigFile, bad_config s = true →
      TK.load_risk_mapping s = TK.default_mapping_j) ∧
    RA.load_risk_mapping ConfigFile.absent = JVal.obj [] ∧
    RA.load_risk_mapping ConfigFile.unreadable = JVal.obj [] ∧
    (∀ j : JVal, RA.load_risk_mapping (ConfigFile.content j) = j) := by
  refine ⟨?_, rfl, rfl, fun j => rfl⟩
  intro s hs
  cases s with
  | absent => rfl
  | unreadable => rfl
  | content j =>
    cases j with
    | num q => rfl
    | str t => rfl
    | bool b => rfl
    | null => rfl
    | arr a => rfl
    | obj kvs => exact absurd hs (by simp [bad_config])

/-- Witness for C2: the absent state and a parsed non-mapping document
(a bare number) both fall back to the built-in default in TK_risk. -/
theorem claim_C2_witness :
    TK.load_risk_mapping ConfigFile.absent = TK.default_mapping_j ∧
    TK.load_risk_mapping (ConfigFile.content (JVal.num 7)) = TK.default_mapping_j ∧
    RA.load_risk_mapping (ConfigFile.content (JVal.num 7)) = JVal.num 7 :=
  ⟨claim_C2.1 ConfigFile.absent rfl,
    claim_C2.1 (ConfigFile.content (JVal.num 7)) rfl,
    claim_C2.2.2.2 (JVal.num 7)⟩

/-- Counterexample to C7 as stated: saving the flat mapping with the
single entry risk_mapping: 2 through TK_risk and loading it back
returns the number 2, because load unwraps the risk_mapping key — not
a mapping equal to the one saved. -/
theorem claim_C7_counterexample :
    TK.load_risk_mapping (TK.save_mapping [("risk_mapping", JVal.num 2)]) = JVal.num 2 ∧
    JVal.num 2 ≠ JVal.obj [("risk_mapping", JVal.num 2)] := by
  refine ⟨rfl, ?_⟩
  intro h
  exact JVal.noConfusion h

/-- C7 as amended: risk_assessment's save followed by load returns an
equal mapping for every mapping (flat or per-column, indeed for every
JSON document); TK_risk's save followed by load returns an equal
mapping for every mapping without a top-level risk_mapping key, and
unwraps that key's value otherwise. -/
theorem claim_C7 :
    (∀ j : JVal, RA.load_risk_mapping (RA.save_risk_mapping j) = j) ∧
    (∀ kvs : List (String × JVal), kvs.lookup "risk_mapping" = none →
      TK.load_risk_mapping (TK.save_mapping kvs) = JVal.obj kvs) := by
  constructor
  · intro j
    rfl
  · intro kvs h
    simp only [TK.save_mapping, writeJson, TK.load_risk_mapping, h]

/-- Witness for C7: the default flat mapping and a per-column mapping
both round-trip; neither has a top-level risk_mapping key. -/
theorem claim_C7_witness :
    RA.load_risk_mapping (RA.save_risk_mapping
      (JVal.obj [("Severity", JVal.obj [("Critical", JVal.num 5)])])) =
      JVal.obj [("Severity", JVal.obj [("Critical", JVal.num 5)])] ∧
    TK.load_risk_mapping (TK.save_mapping
      [("Critical Focus", JVal.num 5), ("Enhanced Focus", JVal.num 3),
        ("On Track", JVal.num 1)]) =
      JVal.obj [("Critical Focus", JVal.num 5), ("Enhanced Focus", JVal.num 3),
        ("On Track", JVal.num 1)] :=
  ⟨claim_C7.1 (JVal.obj [("Severity", JVal.obj [("Critical", JVal.num 5)])]),
    claim_C7.2 [("Critical Focus", JVal.num 5), ("Enhanced Focus", JVal.num 3),
      ("On Track", JVal.num 1)] rfl⟩
